import Mathlib

/-!
Verification of the Mars-Weather-App core against its specification.

The Python source is shallowly embedded:

* JSON numbers are modelled as exact rationals (`Rat`); JSON objects with a
  fixed set of recognized fields are modelled as Lean structures whose fields
  are `Option`-typed when the source reads them with `dict.get` defaults.
* The `random` module is modelled by an explicit entropy source
  (`RandomSource`): `random.randint lo hi` maps raw entropy into `[lo, hi]`
  by remainder, `random.choice` indexes the list by remainder, and
  `random.uniform a b` is `a + (b - a) * u` where `u` models `random()`.
* `datetime` date arithmetic is modelled with the standard proleptic-Gregorian
  civil-date/day-number conversion; the time-of-day component of a parsed
  ISO instant is not tracked because the code only ever adds whole days and
  then formats the date part, which the time component cannot affect.
* Exception control flow in `get_mars_weather` is modelled in two layers: a
  `TryResult` for the body of the `try:` block (a value or a raised exception
  with its Python class kind), and the chain of `except` clauses mapping that
  to the caller-visible `FetchOutcome`.
-/

/-- `TemperatureData` from utils.py: min/max/avg in degrees Celsius. -/
structure TemperatureData where
  min_temp : Rat
  max_temp : Rat
  avg_temp : Rat
deriving DecidableEq, Repr

/-- `TemperatureData.to_fahrenheit`: `c * 9/5 + 32` applied element-wise,
returning a fresh record (the receiver is not mutated). -/
def TemperatureData.to_fahrenheit (t : TemperatureData) : TemperatureData :=
  { min_temp := t.min_temp * 9 / 5 + 32
    max_temp := t.max_temp * 9 / 5 + 32
    avg_temp := t.avg_temp * 9 / 5 + 32 }

/-- ASCII model of Python `str.lower` (the unit tokens involved are ASCII). -/
def pyLower (s : String) : String :=
  String.mk (s.toList.map fun c =>
    if 'A' ≤ c ∧ c ≤ 'Z' then Char.ofNat (c.toNat + 32) else c)

/-- Round a rational to the nearest integer, ties to even: model of the
rounding used when Python formats a value with `:.1f` (exact on the decimal
values occurring here; Python rounds the nearest binary double). -/
def roundHalfEven (q : Rat) : Int :=
  let f := Int.fdiv q.num q.den
  let r := q - (f : Rat)
  if r < 1 / 2 then f
  else if 1 / 2 < r then f + 1
  else if f % 2 = 0 then f else f + 1

/-- Model of the f-string `f"{x:.1f}"`: one decimal digit, no padding. -/
def formatFixed1 (q : Rat) : String :=
  let n := roundHalfEven (q * 10)
  let sign := if n < 0 then "-" else ""
  sign ++ toString (n.natAbs / 10) ++ "." ++ toString (n.natAbs % 10)

/-- The dictionary returned by `TemperatureData.format_temp`. -/
structure FormattedTemp where
  min : String
  max : String
  avg : String
deriving DecidableEq, Repr

/-- `TemperatureData.format_temp` from utils.py: converts to Fahrenheit iff
`unit.lower() == "fahrenheit"`, otherwise formats the Celsius values with
`°C`; each entry is the `:.1f` rendering followed by the unit symbol. -/
def TemperatureData.format_temp (t : TemperatureData)
    (unit : String := "Celsius") : FormattedTemp :=
  let p := if pyLower unit = "fahrenheit" then (t.to_fahrenheit, "°F") else (t, "°C")
  { min := formatFixed1 p.1.min_temp ++ p.2
    max := formatFixed1 p.1.max_temp ++ p.2
    avg := formatFixed1 p.1.avg_temp ++ p.2 }

/-- `PressureData` from utils.py: average pressure required, extremes
optional (`None` in Python modelled as `Option.none`). -/
structure PressureData where
  pressure : Rat
  min_pressure : Option Rat := none
  max_pressure : Option Rat := none
deriving DecidableEq, Repr

/-- `WindData` from utils.py. -/
structure WindData where
  wind_speed : Rat
  wind_direction : Option String := none
deriving DecidableEq, Repr

/-- `MarsWeatherData` from utils.py: the aggregate per-sol record. -/
structure MarsWeatherData where
  sol : Int
  terrestrial_date : String
  season : String
  temperature : TemperatureData
  pressure : PressureData
  wind : WindData
deriving DecidableEq, Repr

/-- The nested-dictionary image of `dataclasses.asdict` on a
`MarsWeatherData` (the serialized form cached to disk). -/
structure WeatherDict where
  sol : Int
  terrestrial_date : String
  season : String
  temperature : TemperatureData
  pressure : PressureData
  wind : WindData
deriving DecidableEq, Repr

/-- `MarsWeatherData.to_dict`: `dataclasses.asdict`, a structural copy of
every field into plain dictionaries. -/
def MarsWeatherData.to_dict (r : MarsWeatherData) : WeatherDict :=
  { sol := r.sol
    terrestrial_date := r.terrestrial_date
    season := r.season
    temperature := ⟨r.temperature.min_temp, r.temperature.max_temp, r.temperature.avg_temp⟩
    pressure := ⟨r.pressure.pressure, r.pressure.min_pressure, r.pressure.max_pressure⟩
    wind := ⟨r.wind.wind_speed, r.wind.wind_direction⟩ }

/-- `MarsWeatherData.from_dict`: rebuilds each nested dataclass from the
corresponding sub-dictionary (`TemperatureData(**data['temperature'])` …). -/
def MarsWeatherData.from_dict (d : WeatherDict) : MarsWeatherData :=
  { sol := d.sol
    terrestrial_date := d.terrestrial_date
    season := d.season
    temperature := ⟨d.temperature.min_temp, d.temperature.max_temp, d.temperature.avg_temp⟩
    pressure := ⟨d.pressure.pressure, d.pressure.min_pressure, d.pressure.max_pressure⟩
    wind := ⟨d.wind.wind_speed, d.wind.wind_direction⟩ }

/-- A fully-resolved configuration (the five recognized keys). -/
structure Config where
  api_key : String
  temperature_unit : String
  auto_refresh : Bool
  refresh_interval : Int
  notifications_enabled : Bool
deriving DecidableEq, Repr

/-- The `default_config` dictionary built inside `load_config`. -/
def default_config : Config :=
  { api_key := "DEMO_KEY"
    temperature_unit := "Celsius"
    auto_refresh := true
    refresh_interval := 300
    notifications_enabled := true }

/-- A parsed config file: each recognized key optionally present. -/
structure PartialConfig where
  api_key : Option String := none
  temperature_unit : Option String := none
  auto_refresh : Option Bool := none
  refresh_interval : Option Int := none
  notifications_enabled : Option Bool := none
deriving DecidableEq, Repr

/-- The possible outcomes of the filesystem interactions of `load_config`.
`load_config` begins with `config_path = get_config_path()` — evaluated
*before* its `try:` block — and `get_config_path` runs
`os.makedirs(config_dir)` when `~/.mars_weather` does not exist, which can
raise `OSError` (`mkdirError`).  Inside the `try:`, the file may be absent
(`os.path.exists` false), unreadable or non-JSON (`unreadable`), or parsed
as an object (`parsed`). -/
inductive ConfigFile where
  | mkdirError
  | missing
  | unreadable
  | parsed (c : PartialConfig)

/-- What a call to `load_config` makes the caller observe: a returned
configuration, or an exception propagating out. -/
inductive ConfigLoadOutcome where
  | ok (c : Config)
  | raised
deriving DecidableEq, Repr

/-- `load_config` from utils.py.  The path lookup runs before the `try:`
block, so an `OSError` from the directory creation inside
`get_config_path` propagates to the caller (unlike `save_config` and the
two cache functions, which call the path helper inside their `try:`).
After that, a missing file falls through to the defaults, any read or JSON
error is caught and also yields the defaults, and a parsed file is merged
as `{**default_config, **config}` — every key present in the file wins,
every absent key keeps its default. -/
def load_config (f : ConfigFile) : ConfigLoadOutcome :=
  match f with
  | .mkdirError => .raised
  | .missing => .ok default_config
  | .unreadable => .ok default_config
  | .parsed c =>
    .ok
      { api_key := c.api_key.getD default_config.api_key
        temperature_unit := c.temperature_unit.getD default_config.temperature_unit
        auto_refresh := c.auto_refresh.getD default_config.auto_refresh
        refresh_interval := c.refresh_interval.getD default_config.refresh_interval
        notifications_enabled :=
          c.notifications_enabled.getD default_config.notifications_enabled }

/-- Leap-year test of the proleptic Gregorian calendar. -/
def isLeapYear (y : Int) : Bool :=
  (y % 4 == 0 && y % 100 != 0) || (y % 400 == 0)

/-- Number of days in a month. -/
def daysInMonth (y m : Int) : Int :=
  if m = 2 then (if isLeapYear y then 29 else 28)
  else if m = 4 ∨ m = 6 ∨ m = 9 ∨ m = 11 then 30
  else 31

/-- Civil date to day number (days since 1970-01-01, Gregorian). -/
def daysFromCivil (y m d : Int) : Int :=
  let y := if m ≤ 2 then y - 1 else y
  let era := Int.fdiv y 400
  let yoe := y - era * 400
  let mp := m + (if 2 < m then -3 else 9)
  let doy := Int.fdiv (153 * mp + 2) 5 + d - 1
  let doe := yoe * 365 + Int.fdiv yoe 4 - Int.fdiv yoe 100 + doy
  era * 146097 + doe - 719468

/-- Day number (days since 1970-01-01) back to the civil date `(y, m, d)`. -/
def civilFromDays (z : Int) : Int × Int × Int :=
  let z := z + 719468
  let era := Int.fdiv z 146097
  let doe := z - era * 146097
  let yoe := Int.fdiv (doe - Int.fdiv doe 1460 + Int.fdiv doe 36524 - Int.fdiv doe 146096) 365
  let y := yoe + era * 400
  let doy := doe - (365 * yoe + Int.fdiv yoe 4 - Int.fdiv yoe 100)
  let mp := Int.fdiv (5 * doy + 2) 153
  let d := doy - Int.fdiv (153 * mp + 2) 5 + 1
  let m := mp + (if mp < 10 then 3 else -9)
  (if m ≤ 2 then y + 1 else y, m, d)

/-- Zero-pad a (nonnegative) field to two digits. -/
def pad2 (n : Int) : String :=
  if n < 10 then "0" ++ toString n else toString n

/-- Model of `strftime('%Y-%m-%d')` applied to the given day number. -/
def formatDate (z : Int) : String :=
  let c := civilFromDays z
  toString c.1 ++ "-" ++ pad2 c.2.1 ++ "-" ++ pad2 c.2.2

/-- Model of `str.replace('Z', '+00:00')`. -/
def pyReplaceZ (s : String) : String :=
  String.join (s.toList.map fun c => if c = 'Z' then "+00:00" else String.singleton c)

/-- Value of a decimal digit character. -/
def digitVal (c : Char) : Nat := c.toNat - 48

/-- Digits to the number they denote. -/
def digitsToNat (cs : List Char) : Nat :=
  cs.foldl (fun a c => a * 10 + digitVal c) 0

/-- Model of Python `int(s)` on a decimal string: optional sign followed by
at least one digit gives the value, anything else raises (`none`). -/
def pyInt (s : String) : Option Int :=
  match s.toList with
  | [] => none
  | '-' :: rest =>
    if rest ≠ [] ∧ rest.all Char.isDigit then some (-(digitsToNat rest : Int)) else none
  | '+' :: rest =>
    if rest ≠ [] ∧ rest.all Char.isDigit then some (digitsToNat rest : Int) else none
  | cs =>
    if cs.all Char.isDigit then some (digitsToNat cs : Int) else none

/-- Model of `datetime.fromisoformat` restricted to what the parse needs:
the result is the day number of the leading `YYYY-MM-DD` date, validated
(digits, dashes, month and day in range, `T` or space or nothing after);
a malformed string raises (`none`).  The time-of-day and offset components
are not tracked: adding whole days and formatting `%Y-%m-%d` ignores them. -/
def parseISODate (s : String) : Option Int :=
  let cs := s.toList
  match cs with
  | y1 :: y2 :: y3 :: y4 :: '-' :: m1 :: m2 :: '-' :: d1 :: d2 :: rest =>
    if ([y1, y2, y3, y4, m1, m2, d1, d2].all Char.isDigit)
        ∧ (rest = [] ∨ rest.head? = some 'T' ∨ rest.head? = some ' ') then
      let y : Int := digitsToNat [y1, y2, y3, y4]
      let m : Int := digitsToNat [m1, m2]
      let d : Int := digitsToNat [d1, d2]
      if 1 ≤ m ∧ m ≤ 12 ∧ 1 ≤ d ∧ d ≤ daysInMonth y m then
        some (daysFromCivil y m d)
      else none
    else none
  | _ => none

/-- The `AT` sub-mapping of a sol entry (air temperature). -/
structure ATData where
  mn : Option Rat := none
  mx : Option Rat := none
  av : Option Rat := none
deriving DecidableEq, Repr

/-- The `PRE` sub-mapping of a sol entry (pressure). -/
structure PREData where
  av : Option Rat := none
  mn : Option Rat := none
  mx : Option Rat := none
deriving DecidableEq, Repr

/-- The `HWS` sub-mapping of a sol entry (horizontal wind speed). -/
structure HWSData where
  av : Option Rat := none
deriving DecidableEq, Repr

/-- The `most_common` sub-mapping of `WD`. -/
structure WDMostCommon where
  compass_point : Option String := none
deriving DecidableEq, Repr

/-- The `WD` sub-mapping of a sol entry (wind direction). -/
structure WDData where
  most_common : Option WDMostCommon := none
deriving DecidableEq, Repr

/-- A per-sol mapping in the API payload; every field the parser reads is
optional, matching the `dict.get` accesses in the source. -/
structure SolData where
  AT : Option ATData := none
  PRE : Option PREData := none
  HWS : Option HWSData := none
  WD : Option WDData := none
  Season : Option String := none
  First_UTC : Option String := none
deriving DecidableEq, Repr

/-- The InSight API payload: the `sol_keys` list (absent when the field is
missing) and the per-sol entries keyed by the sol's string identifier. -/
structure Payload where
  sol_keys : Option (List String) := none
  entries : List (String × SolData) := []
deriving DecidableEq, Repr

/-- First entry with the given key, `none` when the key is absent
(`data[k]` raising `KeyError` / `data.get(k)` returning a default). -/
def lookupKey (k : String) : List (String × SolData) → Option SolData
  | [] => none
  | kv :: rest => if kv.1 = k then some kv.2 else lookupKey k rest

/-- An explicit entropy source standing in for Python's `random` module:
`ints n` is the raw entropy consumed by the `n`-th integer-valued draw of a
call, `unit n` models the `n`-th `random.random()` value in `[0, 1)`. -/
structure RandomSource where
  ints : Nat → Nat
  unit : Nat → Rat

/-- Model of `random.randint lo hi` (inclusive bounds): raw entropy reduced
into the `hi - lo + 1` possible values. -/
def pyRandint (lo hi : Int) (raw : Nat) : Int :=
  lo + ((raw % (hi - lo + 1).toNat : Nat) : Int)

/-- Model of `random.choice` on a nonempty list: entropy reduced modulo the
length picks the index. -/
def pyChoice (xs : List String) (raw : Nat) : String :=
  (xs.get? (raw % xs.length)).getD ""

/-- Model of `random.uniform a b = a + (b - a) * random()`. -/
def pyUniform (a b : Rat) (u : Rat) : Rat := a + (b - a) * u

/-- `NASAAPIClient._get_demo_weather_data` from api_client.py: the synthetic
fallback record.  `today` stands for `datetime.now().strftime('%Y-%m-%d')`;
the entropy draws are numbered in the source's call order. -/
def _get_demo_weather_data (rng : RandomSource) (today : String) : MarsWeatherData :=
  let base_temp := pyRandint (-90) (-40) (rng.ints 0)
  let temperature : TemperatureData :=
    { min_temp := ((base_temp - pyRandint 5 15 (rng.ints 1) : Int) : Rat)
      max_temp := ((base_temp + pyRandint 10 30 (rng.ints 2) : Int) : Rat)
      avg_temp := (base_temp : Rat) }
  let pressure : PressureData :=
    { pressure := ((pyRandint 600 800 (rng.ints 3) : Int) : Rat)
      min_pressure := some ((pyRandint 580 650 (rng.ints 4) : Int) : Rat)
      max_pressure := some ((pyRandint 750 850 (rng.ints 5) : Int) : Rat) }
  let directions := ["N", "NE", "E", "SE", "S", "SW", "W", "NW"]
  let wind : WindData :=
    { wind_speed := pyUniform 2 15 (rng.unit 0)
      wind_direction := some (pyChoice directions (rng.ints 6)) }
  let seasons := ["Spring", "Summer", "Autumn", "Winter"]
  let current_sol := 3000 + pyRandint 0 500 (rng.ints 7)
  { sol := current_sol
    terrestrial_date := today
    season := pyChoice seasons (rng.ints 8)
    temperature := temperature
    pressure := pressure
    wind := wind }

/-- The `First_UTC` anchor read by the parser: `data.get('1', {}).get('First_UTC',
'2018-11-27T00:00:00Z')` — always the sol keyed `"1"`, never the latest sol. -/
def firstUTCAnchor (data : Payload) : String :=
  (((lookupKey "1" data.entries).getD {}).First_UTC).getD "2018-11-27T00:00:00Z"

/-- The body of `NASAAPIClient._parse_weather_data`'s `try:` block.  `none`
collects every path that ends in the demo fallback: empty/absent `sol_keys`
(the explicit early return) and each operation that can raise — the
`data[latest_sol]` key lookup, `int(latest_sol)`, and
`datetime.fromisoformat` (the `except` clause).  All `dict.get` reads with
defaults are total and cannot raise. -/
def extractRecord (data : Payload) : Option MarsWeatherData := do
  let sol_keys := data.sol_keys.getD []
  let latest_sol ← sol_keys.getLast?
  let sol_data ← lookupKey latest_sol data.entries
  let temp_data := sol_data.AT.getD {}
  let temperature : TemperatureData :=
    { min_temp := temp_data.mn.getD (-80)
      max_temp := temp_data.mx.getD (-20)
      avg_temp := temp_data.av.getD (-50) }
  let pressure_data := sol_data.PRE.getD {}
  let pressure : PressureData :=
    { pressure := pressure_data.av.getD 650
      min_pressure := some (pressure_data.mn.getD 600)
      max_pressure := some (pressure_data.mx.getD 700) }
  let wind_data := sol_data.HWS.getD {}
  let wind : WindData :=
    { wind_speed := wind_data.av.getD 5.5
      wind_direction :=
        some ((((sol_data.WD.getD {}).most_common.getD {}).compass_point).getD "NE") }
  let season := sol_data.Season.getD "Unknown"
  let base_date ← parseISODate (pyReplaceZ (firstUTCAnchor data))
  let latest_int ← pyInt latest_sol
  let current_date := base_date + latest_int
  some
    { sol := latest_int
      terrestrial_date := formatDate current_date
      season := season
      temperature := temperature
      pressure := pressure
      wind := wind }

/-- `NASAAPIClient._parse_weather_data`: the extraction above, with every
failing path resolved by the demo generator (the early return and the
`except Exception` clause both call `_get_demo_weather_data`). -/
def _parse_weather_data (data : Payload) (rng : RandomSource) (today : String) :
    MarsWeatherData :=
  match extractRecord data with
  | some r => r
  | none => _get_demo_weather_data rng today

/-- Outcome of `self.session.get(...)` followed by `response.json()`:
either a response with a status code and (for 200) a JSON body — `none`
when `response.json()` would raise — or one of the exception classes the
`except` clauses distinguish. -/
inductive TransportResult where
  | resp (status : Nat) (body : Option Payload)
  | raiseTimeout
  | raiseConnection
  | raiseOther
deriving DecidableEq

/-- The Python exception class of a raised exception, as far as the
`except` clauses of `get_mars_weather` can tell them apart. -/
inductive ExcKind where
  | timeout
  | connection
  | generic
deriving DecidableEq, Repr

/-- Result of a `try:` body: a returned value or a raised exception. -/
inductive TryResult (α : Type) where
  | ret (a : α)
  | exc (k : ExcKind) (msg : String)
deriving DecidableEq, Repr

/-- The body of `NASAAPIClient.get_mars_weather`'s `try:` block.  The 403
and 429 branches execute `raise Exception(...)` — a plain `Exception`, so
kind `generic` — from *inside* the `try:` block. -/
def get_weather_try_body (t : TransportResult) (rng : RandomSource) (today : String) :
    TryResult MarsWeatherData :=
  match t with
  | .raiseTimeout => .exc .timeout "requests.exceptions.Timeout from session.get"
  | .raiseConnection => .exc .connection "requests.exceptions.ConnectionError from session.get"
  | .raiseOther => .exc .generic "unexpected exception during the request"
  | .resp status body =>
    if status = 200 then
      match body with
      | some data => .ret (_parse_weather_data data rng today)
      | none => .exc .generic "response.json() raised"
    else if status = 403 then
      .exc .generic "Invalid API key. Please check your NASA API key."
    else if status = 429 then
      .exc .generic "API rate limit exceeded. Please try again later."
    else
      .ret (_get_demo_weather_data rng today)

/-- What a call to `get_mars_weather` makes the caller observe: a returned
record, or an exception propagating out. -/
inductive FetchOutcome where
  | ok (r : MarsWeatherData)
  | error (msg : String)
deriving DecidableEq, Repr

/-- `NASAAPIClient.get_mars_weather`: the `except` clauses applied in the
source's order to whatever the `try:` body did.  An exception raised inside
the `try:` block — including the function's own 403/429 `raise` — is
matched against the clauses: `except requests.exceptions.Timeout` and
`except requests.exceptions.ConnectionError` each `raise Exception(...)`
anew (which propagates, since an exception raised inside an `except`
clause is not caught by later clauses of the same `try`), while
`except Exception` catches everything else and returns demo data. -/
def get_mars_weather (t : TransportResult) (rng : RandomSource) (today : String) :
    FetchOutcome :=
  match get_weather_try_body t rng today with
  | .ret r => .ok r
  | .exc .timeout _ => .error "Request timed out. Please check your internet connection."
  | .exc .connection _ => .error "Connection error. Please check your internet connection."
  | .exc .generic _ => .ok (_get_demo_weather_data rng today)

/-- `random.randint lo hi` stays within its inclusive bounds. -/
theorem pyRandint_mem (lo hi : Int) (h : lo ≤ hi) (raw : Nat) :
    lo ≤ pyRandint lo hi raw ∧ pyRandint lo hi raw ≤ hi := by
  unfold pyRandint
  have hto : ((hi - lo + 1).toNat : Int) = hi - lo + 1 := Int.toNat_of_nonneg (by omega)
  have hlt : raw % (hi - lo + 1).toNat < (hi - lo + 1).toNat := by
    apply Nat.mod_lt
    omega
  have hcast : ((raw % (hi - lo + 1).toNat : Nat) : Int) < hi - lo + 1 := by
    rw [← hto]
    exact_mod_cast hlt
  omega

/-- `random.choice` on a nonempty list returns one of its elements. -/
theorem pyChoice_mem (xs : List String) (h : xs ≠ []) (raw : Nat) :
    pyChoice xs raw ∈ xs := by
  unfold pyChoice
  have hlen : 0 < xs.length := List.length_pos.mpr h
  have hlt : raw % xs.length < xs.length := Nat.mod_lt _ hlen
  rw [List.get?_eq_getElem?, List.getElem?_eq_getElem hlt]
  exact List.getElem_mem hlt

/-- An empty or absent `sol_keys` makes the extraction fail over. -/
theorem extractRecord_eq_none_of_no_sol_keys (p : Payload)
    (h : p.sol_keys.getD [] = []) : extractRecord p = none := by
  unfold extractRecord
  rw [h]
  rfl

/-- A fixed entropy source used to evaluate the model at concrete inputs. -/
def rng0 : RandomSource := { ints := fun _ => 0, unit := fun _ => 0 }

/-- A payload with `sol_keys` listed out of numeric order: `"600"` comes
last, so the code treats `"600"` as the latest sol. -/
def P610 : Payload :=
  { sol_keys := some ["610", "600"]
    entries := [("600", {}), ("1", { First_UTC := some "2018-11-27T00:00:00Z" })] }

/-- What `_parse_weather_data` extracts from `P610`. -/
def r610 : MarsWeatherData :=
  { sol := 600
    terrestrial_date := "2020-07-19"
    season := "Unknown"
    temperature := ⟨-80, -20, -50⟩
    pressure := ⟨650, some 600, some 700⟩
    wind := ⟨5.5, some "NE"⟩ }

/-- A payload whose only sol entry has every measurement field missing:
every value in the parsed record comes from the default table. -/
def P7 : Payload := { sol_keys := some ["7"], entries := [("7", {})] }

/-- What `_parse_weather_data` extracts from `P7`: the full default table,
with the terrestrial date anchored on the mission-start default
`2018-11-27` plus 7 days. -/
def r7 : MarsWeatherData :=
  { sol := 7
    terrestrial_date := "2018-12-04"
    season := "Unknown"
    temperature := ⟨-80, -20, -50⟩
    pressure := ⟨650, some 600, some 700⟩
    wind := ⟨5.5, some "NE"⟩ }

/-- A payload carrying an explicit `First_UTC` on the sol keyed `"1"`. -/
def P5 : Payload :=
  { sol_keys := some ["5"]
    entries := [("5", {}), ("1", { First_UTC := some "2020-01-01T08:30:00Z" })] }

/-- A payload with no `sol_keys` field at all. -/
def Pempty : Payload := {}

/-- Rewrite the `First_UTC` field of every entry keyed `key` (leaving the
rest of the payload untouched), to express that a field is not consulted. -/
def setFirstUTC (p : Payload) (key : String) (v : Option String) : Payload :=
  { p with
    entries := p.entries.map fun kv =>
      if kv.1 = key then (kv.1, { kv.2 with First_UTC := v }) else kv }

/-- Looking up a key other than the rewritten one is unaffected. -/
theorem lookupKey_setFirstUTC_ne (k key : String) (v : Option String)
    (entries : List (String × SolData)) (hk : k ≠ key) :
    lookupKey k (entries.map fun kv =>
        if kv.1 = key then (kv.1, { kv.2 with First_UTC := v }) else kv)
      = lookupKey k entries := by
  induction entries with
  | nil => rfl
  | cons kv rest ih =>
    simp only [List.map_cons]
    by_cases hkey : kv.1 = key
    · rw [if_pos hkey]
      simp only [lookupKey]
      have hne : ¬ kv.1 = k := fun h => hk ((h.symm).trans hkey)
      rw [if_neg hne, if_neg hne, ih]
    · rw [if_neg hkey]
      simp only [lookupKey]
      by_cases hkk : kv.1 = k
      · rw [if_pos hkk, if_pos hkk]
      · rw [if_neg hkk, if_neg hkk, ih]

/-- Looking up the rewritten key returns the entry with only its
`First_UTC` field replaced. -/
theorem lookupKey_setFirstUTC_eq (key : String) (v : Option String)
    (entries : List (String × SolData)) :
    lookupKey key (entries.map fun kv =>
        if kv.1 = key then (kv.1, { kv.2 with First_UTC := v }) else kv)
      = (lookupKey key entries).map fun sd => { sd with First_UTC := v } := by
  induction entries with
  | nil => rfl
  | cons kv rest ih =>
    simp only [List.map_cons]
    by_cases hkey : kv.1 = key
    · rw [if_pos hkey]
      simp only [lookupKey]
      rw [if_pos hkey, if_pos hkey]
      rfl
    · rw [if_neg hkey]
      simp only [lookupKey]
      rw [if_neg hkey, if_neg hkey, ih]

/-- C7: for every constructed WeatherRecord — including records with absent
pressure extremes and absent wind direction, which range over all `Option`
values here — deserializing its serialized form yields an equal record:
`from_dict (to_dict r) = r`. -/
theorem weather_serialization_round_trip :
    ∀ r : MarsWeatherData, MarsWeatherData.from_dict (MarsWeatherData.to_dict r) = r :=
  fun _ => rfl

/-- C8 (refuted on the code — the spec's stated intent is that persistence
failures are never raised): "on any I/O failure return the defaults" fails
because `config_path = get_config_path()` is evaluated before the `try:`
block and `get_config_path` runs `os.makedirs`, whose `OSError` therefore
propagates to the caller (first conjunct).  Every other path behaves as
claimed: a missing file and any read/parse failure return exactly the five
documented defaults, a parsed file is the defaults overlaid by the keys
present (each present key wins, each absent key falls back), and a file
containing only `{"temperature_unit": "Fahrenheit"}` overrides exactly
that key. -/
theorem load_config_mkdir_error_propagates :
    load_config .mkdirError = .raised ∧
    load_config .missing =
      .ok { api_key := "DEMO_KEY", temperature_unit := "Celsius", auto_refresh := true,
            refresh_interval := 300, notifications_enabled := true } ∧
    load_config .unreadable =
      .ok { api_key := "DEMO_KEY", temperature_unit := "Celsius", auto_refresh := true,
            refresh_interval := 300, notifications_enabled := true } ∧
    (∀ c : PartialConfig,
      load_config (.parsed c) =
        .ok { api_key := c.api_key.getD "DEMO_KEY"
              temperature_unit := c.temperature_unit.getD "Celsius"
              auto_refresh := c.auto_refresh.getD true
              refresh_interval := c.refresh_interval.getD 300
              notifications_enabled := c.notifications_enabled.getD true }) ∧
    load_config (.parsed { temperature_unit := some "Fahrenheit" }) =
      .ok { api_key := "DEMO_KEY", temperature_unit := "Fahrenheit", auto_refresh := true,
            refresh_interval := 300, notifications_enabled := true } :=
  ⟨rfl, rfl, rfl, fun _ => rfl, rfl⟩

/-- C9: the Fahrenheit conversion applies `c * 9/5 + 32` element-wise to
min, max and avg, building a fresh record (the receiver cannot be mutated
in this embedding, so immutability of the source is inherent), and on
`{min: -80, max: -20, avg: -50}` it gives exactly
`{min: -112, max: -4, avg: -58}`. -/
theorem to_fahrenheit_elementwise_and_exact :
    (∀ t : TemperatureData,
        t.to_fahrenheit.min_temp = t.min_temp * 9 / 5 + 32 ∧
        t.to_fahrenheit.max_temp = t.max_temp * 9 / 5 + 32 ∧
        t.to_fahrenheit.avg_temp = t.avg_temp * 9 / 5 + 32) ∧
    TemperatureData.to_fahrenheit ⟨-80, -20, -50⟩ = ⟨-112, -4, -58⟩ :=
  ⟨fun _ => ⟨rfl, rfl, rfl⟩, by norm_num [TemperatureData.to_fahrenheit]⟩

/-- C10: temperature formatting converts to Fahrenheit exactly when the
lowercased unit string is `"fahrenheit"`; any other string — including
tokens outside {Celsius, Fahrenheit} — silently formats the Celsius values
with the `°C` symbol, identically to formatting with `"Celsius"`, and no
path can fail. -/
theorem format_temp_fahrenheit_iff_lowercase :
    ∀ (t : TemperatureData) (u : String),
      (pyLower u = "fahrenheit" →
        t.format_temp u =
          { min := formatFixed1 t.to_fahrenheit.min_temp ++ "°F"
            max := formatFixed1 t.to_fahrenheit.max_temp ++ "°F"
            avg := formatFixed1 t.to_fahrenheit.avg_temp ++ "°F" }) ∧
      (pyLower u ≠ "fahrenheit" →
        t.format_temp u = t.format_temp "Celsius" ∧
        t.format_temp u =
          { min := formatFixed1 t.min_temp ++ "°C"
            max := formatFixed1 t.max_temp ++ "°C"
            avg := formatFixed1 t.avg_temp ++ "°C" }) := by
  intro t u
  constructor
  · intro h
    simp [TemperatureData.format_temp, h]
  · intro h
    constructor
    · simp [TemperatureData.format_temp, h,
        show pyLower "Celsius" ≠ "fahrenheit" from by decide]
    · simp [TemperatureData.format_temp, h]

/-- Witness for C10 at the invalid unit token `"Kelvin"`. -/
theorem format_temp_fahrenheit_iff_lowercase_witness :
    pyLower "Kelvin" ≠ "fahrenheit" ∧
    (TemperatureData.mk (-80) (-20) (-50)).format_temp "Kelvin"
      = (TemperatureData.mk (-80) (-20) (-50)).format_temp "Celsius" :=
  ⟨by decide,
    ((format_temp_fahrenheit_iff_lowercase ⟨-80, -20, -50⟩ "Kelvin").2 (by decide)).1⟩

/-- C1 (refuted — the code contradicts the spec's stated intent): the 403
and 429 branches execute `raise Exception(...)` from inside the same `try:`
block whose final clause is `except Exception`, so the function catches its
own raise and returns a synthetic demo record instead of propagating: for
every entropy source, date, and body, both statuses yield
`.ok (_get_demo_weather_data ...)` and no error reaches the caller. -/
theorem get_mars_weather_swallows_403_and_429 :
    ∀ (rng : RandomSource) (today : String) (body : Option Payload),
      get_mars_weather (.resp 403 body) rng today
          = .ok (_get_demo_weather_data rng today) ∧
      get_mars_weather (.resp 429 body) rng today
          = .ok (_get_demo_weather_data rng today) :=
  fun _ _ _ => ⟨rfl, rfl⟩

/-- C6: a transport timeout propagates as the timed-out error, a connection
failure propagates as the connection error, while every HTTP status other
than 200/403/429 and every other unexpected exception during the request
produce a synthetic record with no exception. -/
theorem fetch_outcome_classification :
    ∀ (rng : RandomSource) (today : String) (body : Option Payload),
      get_mars_weather .raiseTimeout rng today
          = .error "Request timed out. Please check your internet connection." ∧
      get_mars_weather .raiseConnection rng today
          = .error "Connection error. Please check your internet connection." ∧
      (∀ s : Nat, s ≠ 200 → s ≠ 403 → s ≠ 429 →
        get_mars_weather (.resp s body) rng today
          = .ok (_get_demo_weather_data rng today)) ∧
      get_mars_weather .raiseOther rng today = .ok (_get_demo_weather_data rng today) := by
  intro rng today body
  refine ⟨rfl, rfl, fun s h1 h2 h3 => ?_, rfl⟩
  simp [get_mars_weather, get_weather_try_body, h1, h2, h3]

/-- Witness for C6 at HTTP status 500. -/
theorem fetch_outcome_classification_witness :
    get_mars_weather (.resp 500 none) rng0 "2099-01-01"
      = .ok (_get_demo_weather_data rng0 "2099-01-01") :=
  (fetch_outcome_classification rng0 "2099-01-01" none).2.2.1 500
    (by decide) (by decide) (by decide)

/-- Counterexample to C2 as stated: on `sol_keys = ["610", "600"]` the code
takes `sol_keys[-1] = "600"`, so the parsed record has sol 600 — not 610 as
the claim's example asserts. -/
theorem parse_out_of_order_sol_counterexample :
    extractRecord P610 = some r610 ∧
    (_parse_weather_data P610 rng0 "2099-01-01").sol = 600 ∧
    (_parse_weather_data P610 rng0 "2099-01-01").sol ≠ 610 :=
  ⟨rfl, by decide, by decide⟩

/-- C2 (amended): whenever extraction succeeds, the record's sol is the
integer value of the **last** element of `sol_keys` in payload order with
no numeric re-sorting; in particular for `sol_keys = ["610", "600"]` the
resulting record has sol 600, not 610. -/
theorem parse_selects_last_sol_key :
    (∀ (p : Payload) (latest : String) (n : Int) (r : MarsWeatherData),
        (p.sol_keys.getD []).getLast? = some latest →
        pyInt latest = some n →
        extractRecord p = some r →
        r.sol = n) ∧
    (_parse_weather_data P610 rng0 "2099-01-01").sol = 600 := by
  constructor
  · intro p latest n r hl hn hr
    unfold extractRecord at hr
    simp only [Option.bind_eq_bind] at hr
    rw [hl] at hr
    simp only [Option.some_bind] at hr
    rcases hsd : lookupKey latest p.entries with _ | sd
    · rw [hsd] at hr; simp at hr
    · rw [hsd] at hr
      simp only [Option.some_bind] at hr
      rcases hb : parseISODate (pyReplaceZ (firstUTCAnchor p)) with _ | base
      · rw [hb] at hr; simp at hr
      · rw [hb] at hr
        simp only [Option.some_bind] at hr
        rw [hn] at hr
        simp only [Option.some_bind, Option.some_inj] at hr
        rw [← hr]
  · decide

/-- Witness for the amended C2 on the out-of-order payload. -/
theorem parse_selects_last_sol_key_witness : r610.sol = 600 :=
  parse_selects_last_sol_key.1 P610 "600" 600 r610 (by decide) (by decide) rfl

/-- C4: whenever `sol_keys` selects a latest sol whose entry is present and
extraction succeeds, the record applies exactly the default table — AT
mn/mx/av default to −80/−20/−50, PRE mn/mx/av to 600/700/650 (stored as
min/max/avg), HWS av to 5.5, the whole `WD.most_common.compass_point` path
to "NE" when any level is missing, Season to "Unknown" — and present
fields are taken verbatim (`Option.getD` returns the stored value whenever
one is present). -/
theorem parse_applies_default_table :
    ∀ (p : Payload) (latest : String) (sd : SolData) (r : MarsWeatherData),
      (p.sol_keys.getD []).getLast? = some latest →
      lookupKey latest p.entries = some sd →
      extractRecord p = some r →
      r.temperature =
        ⟨(sd.AT.getD {}).mn.getD (-80), (sd.AT.getD {}).mx.getD (-20),
          (sd.AT.getD {}).av.getD (-50)⟩ ∧
      r.pressure =
        ⟨(sd.PRE.getD {}).av.getD 650, some ((sd.PRE.getD {}).mn.getD 600),
          some ((sd.PRE.getD {}).mx.getD 700)⟩ ∧
      r.wind =
        ⟨(sd.HWS.getD {}).av.getD 5.5,
          some ((((sd.WD.getD {}).most_common.getD {}).compass_point).getD "NE")⟩ ∧
      r.season = sd.Season.getD "Unknown" := by
  intro p latest sd r hl hsd hr
  unfold extractRecord at hr
  simp only [Option.bind_eq_bind] at hr
  rw [hl] at hr
  simp only [Option.some_bind] at hr
  rw [hsd] at hr
  simp only [Option.some_bind] at hr
  rcases hb : parseISODate (pyReplaceZ (firstUTCAnchor p)) with _ | base
  · rw [hb] at hr; simp at hr
  · rw [hb] at hr
    simp only [Option.some_bind] at hr
    rcases hi : pyInt latest with _ | m
    · rw [hi] at hr; simp at hr
    · rw [hi] at hr
      simp only [Option.some_bind, Option.some_inj] at hr
      rw [← hr]
      exact ⟨rfl, rfl, rfl, rfl⟩

/-- Witness for C4 on `P7`, whose single sol entry has every field absent:
all values come from the default table. -/
theorem parse_applies_default_table_witness :
    r7.temperature = ⟨-80, -20, -50⟩ ∧
    r7.pressure = ⟨650, some 600, some 700⟩ ∧
    r7.wind = ⟨5.5, some "NE"⟩ ∧
    r7.season = "Unknown" :=
  parse_applies_default_table P7 "7" {} r7 (by decide) rfl rfl

/-- C3: when `sol_keys` is absent or empty, and whenever the extraction
fails (missing latest entry, non-numeric sol key, unparseable anchor
date), `_parse_weather_data` does not fail but returns the synthetic
record, and for every entropy source the synthetic record satisfies the
documented invariants: sol in [3000, 3500], season in the 4-element set,
wind direction present and in the 8-point compass set, avg temperature in
[−90, −40] with min/max offset by [5, 15] and [10, 30], and pressure
avg/min/max in [600, 800], [580, 650], [750, 850]. -/
theorem parse_fallback_and_demo_invariants :
    ∀ (p : Payload) (rng : RandomSource) (today : String),
      ((p.sol_keys.getD [] = [] ∨ extractRecord p = none) →
          _parse_weather_data p rng today = _get_demo_weather_data rng today) ∧
      (3000 ≤ (_get_demo_weather_data rng today).sol ∧
        (_get_demo_weather_data rng today).sol ≤ 3500) ∧
      (_get_demo_weather_data rng today).season ∈ ["Spring", "Summer", "Autumn", "Winter"] ∧
      (∃ d, (_get_demo_weather_data rng today).wind.wind_direction = some d ∧
          d ∈ ["N", "NE", "E", "SE", "S", "SW", "W", "NW"]) ∧
      ((-90 : Rat) ≤ (_get_demo_weather_data rng today).temperature.avg_temp ∧
        (_get_demo_weather_data rng today).temperature.avg_temp ≤ -40) ∧
      ((_get_demo_weather_data rng today).temperature.avg_temp - 15
          ≤ (_get_demo_weather_data rng today).temperature.min_temp ∧
        (_get_demo_weather_data rng today).temperature.min_temp
          ≤ (_get_demo_weather_data rng today).temperature.avg_temp - 5) ∧
      ((_get_demo_weather_data rng today).temperature.avg_temp + 10
          ≤ (_get_demo_weather_data rng today).temperature.max_temp ∧
        (_get_demo_weather_data rng today).temperature.max_temp
          ≤ (_get_demo_weather_data rng today).temperature.avg_temp + 30) ∧
      ((600 : Rat) ≤ (_get_demo_weather_data rng today).pressure.pressure ∧
        (_get_demo_weather_data rng today).pressure.pressure ≤ 800) ∧
      (∃ q, (_get_demo_weather_data rng today).pressure.min_pressure = some q ∧
          (580 : Rat) ≤ q ∧ q ≤ 650) ∧
      (∃ q, (_get_demo_weather_data rng today).pressure.max_pressure = some q ∧
          (750 : Rat) ≤ q ∧ q ≤ 850) := by
  intro p rng today
  have h0 := pyRandint_mem (-90) (-40) (by norm_num) (rng.ints 0)
  have h3 := pyRandint_mem 600 800 (by norm_num) (rng.ints 3)
  have h4 := pyRandint_mem 580 650 (by norm_num) (rng.ints 4)
  have h5 := pyRandint_mem 750 850 (by norm_num) (rng.ints 5)
  have h7 := pyRandint_mem 0 500 (by norm_num) (rng.ints 7)
  have h1 := pyRandint_mem 5 15 (by norm_num) (rng.ints 1)
  have h2 := pyRandint_mem 10 30 (by norm_num) (rng.ints 2)
  refine ⟨?_, ⟨?_, ?_⟩, ?_, ?_, ⟨?_, ?_⟩, ⟨?_, ?_⟩, ⟨?_, ?_⟩, ⟨?_, ?_⟩, ?_, ?_⟩
  · rintro (he | hn)
    · unfold _parse_weather_data
      rw [extractRecord_eq_none_of_no_sol_keys p he]
    · unfold _parse_weather_data
      rw [hn]
  · simp only [_get_demo_weather_data]
    omega
  · simp only [_get_demo_weather_data]
    omega
  · simp only [_get_demo_weather_data]
    exact pyChoice_mem _ (by simp) _
  · simp only [_get_demo_weather_data]
    exact ⟨_, rfl, pyChoice_mem _ (by simp) _⟩
  · simp only [_get_demo_weather_data]
    exact_mod_cast h0.1
  · simp only [_get_demo_weather_data]
    exact_mod_cast h0.2
  · simp only [_get_demo_weather_data]
    exact_mod_cast (by omega :
      pyRandint (-90) (-40) (rng.ints 0) - 15
        ≤ pyRandint (-90) (-40) (rng.ints 0) - pyRandint 5 15 (rng.ints 1))
  · simp only [_get_demo_weather_data]
    exact_mod_cast (by omega :
      pyRandint (-90) (-40) (rng.ints 0) - pyRandint 5 15 (rng.ints 1)
        ≤ pyRandint (-90) (-40) (rng.ints 0) - 5)
  · simp only [_get_demo_weather_data]
    exact_mod_cast (by omega :
      pyRandint (-90) (-40) (rng.ints 0) + 10
        ≤ pyRandint (-90) (-40) (rng.ints 0) + pyRandint 10 30 (rng.ints 2))
  · simp only [_get_demo_weather_data]
    exact_mod_cast (by omega :
      pyRandint (-90) (-40) (rng.ints 0) + pyRandint 10 30 (rng.ints 2)
        ≤ pyRandint (-90) (-40) (rng.ints 0) + 30)
  · simp only [_get_demo_weather_data]
    exact_mod_cast h3.1
  · simp only [_get_demo_weather_data]
    exact_mod_cast h3.2
  · simp only [_get_demo_weather_data]
    exact ⟨_, rfl, by exact_mod_cast h4.1, by exact_mod_cast h4.2⟩
  · simp only [_get_demo_weather_data]
    exact ⟨_, rfl, by exact_mod_cast h5.1, by exact_mod_cast h5.2⟩

/-- Witness for C3 on a payload with no `sol_keys` field at all. -/
theorem parse_fallback_and_demo_invariants_witness :
    _parse_weather_data Pempty rng0 "2099-01-01"
      = _get_demo_weather_data rng0 "2099-01-01" :=
  (parse_fallback_and_demo_invariants Pempty rng0 "2099-01-01").1 (Or.inl (by decide))

/-- What `_parse_weather_data` extracts from `P5`: defaults everywhere,
with the date anchored on sol "1"'s `First_UTC` (2020-01-01) plus 5 days. -/
def r5 : MarsWeatherData :=
  { sol := 5, terrestrial_date := "2020-01-06", season := "Unknown",
    temperature := ⟨-80, -20, -50⟩, pressure := ⟨650, some 600, some 700⟩,
    wind := ⟨5.5, some "NE"⟩ }

/-- C5: the terrestrial date of a successfully parsed record equals the
ISO date of the `First_UTC` of the sol keyed `"1"` (or the fixed
mission-start anchor `2018-11-27T00:00:00Z` when that path is absent —
first conjunct) plus a number of whole days equal to the latest sol
identifier as an integer, formatted `YYYY-MM-DD` (second conjunct); and
the latest sol's own `First_UTC` is never consulted: rewriting it to any
value leaves the extraction unchanged whenever the latest sol is not `"1"`
(third conjunct). -/
theorem terrestrial_date_from_sol1_anchor :
    ∀ (p : Payload) (latest : String) (n : Int) (v : Option String),
      (p.sol_keys.getD []).getLast? = some latest →
      pyInt latest = some n →
      (firstUTCAnchor p
          = ((lookupKey "1" p.entries).bind SolData.First_UTC).getD
              "2018-11-27T00:00:00Z") ∧
      (∀ r, extractRecord p = some r →
          ∃ base, parseISODate (pyReplaceZ (firstUTCAnchor p)) = some base ∧
            r.terrestrial_date = formatDate (base + n) ∧ r.sol = n) ∧
      (latest ≠ "1" → extractRecord (setFirstUTC p latest v) = extractRecord p) := by
  intro p latest n v hl hn
  refine ⟨?_, ?_, ?_⟩
  · unfold firstUTCAnchor
    rcases lookupKey "1" p.entries with _ | sd
    · rfl
    · rfl
  · intro r hr
    unfold extractRecord at hr
    simp only [Option.bind_eq_bind] at hr
    rw [hl] at hr
    simp only [Option.some_bind] at hr
    rcases hsd : lookupKey latest p.entries with _ | sd
    · rw [hsd] at hr; simp at hr
    · rw [hsd] at hr
      simp only [Option.some_bind] at hr
      rcases hb : parseISODate (pyReplaceZ (firstUTCAnchor p)) with _ | base
      · rw [hb] at hr; simp at hr
      · rw [hb] at hr
        simp only [Option.some_bind] at hr
        rw [hn] at hr
        simp only [Option.some_bind, Option.some_inj] at hr
        exact ⟨base, rfl, by rw [← hr], by rw [← hr]⟩
  · intro hne
    have hanchor : firstUTCAnchor (setFirstUTC p latest v) = firstUTCAnchor p := by
      unfold firstUTCAnchor
      rw [show (setFirstUTC p latest v).entries
          = p.entries.map (fun kv =>
              if kv.1 = latest then (kv.1, { kv.2 with First_UTC := v }) else kv) from rfl]
      rw [lookupKey_setFirstUTC_ne "1" latest v p.entries (fun h => hne h.symm)]
    unfold extractRecord
    simp only [Option.bind_eq_bind]
    rw [show (setFirstUTC p latest v).sol_keys = p.sol_keys from rfl, hl]
    simp only [Option.some_bind]
    rw [show (setFirstUTC p latest v).entries
        = p.entries.map (fun kv =>
            if kv.1 = latest then (kv.1, { kv.2 with First_UTC := v }) else kv) from rfl]
    rw [lookupKey_setFirstUTC_eq latest v p.entries, hanchor]
    rcases lookupKey latest p.entries with _ | sd
    · rfl
    · rfl

/-- Witness for C5 on `P5`: the date comes from sol "1"'s anchor
2020-01-01 plus 5 days, and rewriting the latest sol's own `First_UTC`
changes nothing. -/
theorem terrestrial_date_from_sol1_anchor_witness :
    extractRecord P5 = some r5 ∧
    (∃ base, parseISODate (pyReplaceZ (firstUTCAnchor P5)) = some base ∧
        r5.terrestrial_date = formatDate (base + 5) ∧ r5.sol = 5) ∧
    extractRecord (setFirstUTC P5 "5" (some "1999-12-31T00:00:00Z")) = extractRecord P5 :=
  ⟨rfl,
    (terrestrial_date_from_sol1_anchor P5 "5" 5 (some "1999-12-31T00:00:00Z")
        (by decide) (by decide)).2.1 r5 rfl,
    (terrestrial_date_from_sol1_anchor P5 "5" 5 (some "1999-12-31T00:00:00Z")
        (by decide) (by decide)).2.2 (by decide)⟩
